import Mathlib

/-!
Shallow embedding of the OpenFPM device layer (`ofp_context.hpp` and
`cudify_vars.cpp`).  The CUDA runtime is modelled as an environment record
`CudaEnv` that supplies the result of every native call; each embedded
operation returns, next to its value, the list of native API calls it issued
and the list of diagnostic lines it printed, so that claims about "no
allocation call", "emits a diagnostic" and "raises the native error code"
become statements about these lists and about the `Except` result.
-/

namespace Ofp

/-- Pointers: `none` models the C++ null pointer, `some a` a non-null address. -/
abbrev PtrVal := Option Nat

/-- Native CUDA error code carried by `cuda_exception_t` (a nonzero `cudaError_t`). -/
abbrev CudaError := Nat

/-- The `gpu_context_opt` enumeration, identical in all three backend variants. -/
inductive gpu_context_opt
| no_print_props
| print_props
| dummy
deriving DecidableEq, Repr

/-- The `memory_space_t` distinction used by the CUDA_GPU variant:
`memory_space_device` vs host(-pinned) space. -/
inductive memory_space_t
| device
| host
deriving DecidableEq, Repr

/-- Handles owned by the CUDA_GPU context: the two timer events and the event. -/
inductive EventHandle
| timer0
| timer1
| event
deriving DecidableEq, Repr

/-- Native CUDA runtime calls issued by the embedded code. -/
inductive ApiCall
| cudaMalloc (size : Nat)
| cudaMallocHost (size : Nat)
| cudaFree (a : Nat)
| cudaFreeHost (a : Nat)
| cudaFuncGetAttributes
| cudaGetDeviceCount
| cudaSetDevice (ord : Int)
| cudaGetDevice
| cudaGetDeviceProperties (ord : Int)
| cudaEventCreate (h : EventHandle)
| cudaEventDestroy (h : EventHandle)
| cudaEventRecord (h : EventHandle)
| cudaEventSynchronize (h : EventHandle)
| cudaEventElapsedTime
deriving DecidableEq, Repr

/-- A diagnostic line printed to standard output. -/
inductive Output
| notImplemented
| devicePropsPrinted
deriving DecidableEq, Repr

/-- Responses of the CUDA runtime to the native calls the embedded code makes.
`nvcc` selects the `__NVCC__` branch of `init`; `funcAttrPtx` is the outcome of
`cudaFuncGetAttributes` (the ptx version on success), `deviceCount` the value
written by `cudaGetDeviceCount`, `currentDevice` the value written by
`cudaGetDevice`, `elapsedMs` the milliseconds written by
`cudaEventElapsedTime`, and the remaining fields the `cudaError_t` results of
the allocation and free calls. -/
structure CudaEnv where
  nvcc : Bool
  funcAttrPtx : Except CudaError Int
  deviceCount : Nat
  currentDevice : Int
  elapsedMs : Rat
  mallocResult : Nat → Except CudaError Nat
  mallocHostResult : Nat → Except CudaError Nat
  freeResult : Nat → Except CudaError Unit
  freeHostResult : Nat → Except CudaError Unit

namespace CudaGpu

/-- State of a CUDA_GPU `ofp_context_t` after `init`: the `_ptx_version`
member and whether `_props`, `_timer[0]`, `_timer[1]` and `_event` were
actually filled in / created by `init`. -/
structure CtxState where
  ptx_version : Int
  propsLoaded : Bool
  timer0Created : Bool
  timer1Created : Bool
  eventCreated : Bool
deriving DecidableEq, Repr

/-- The ptx-version part of `init`: under `__NVCC__` it calls
`cudaFuncGetAttributes` and throws `cuda_exception_t` on failure; otherwise it
just sets `_ptx_version = 60`. -/
def ptxStep (env : CudaEnv) : List ApiCall × Except CudaError Int :=
  if env.nvcc then ([ApiCall.cudaFuncGetAttributes], env.funcAttrPtx)
  else ([], Except.ok 60)

/-- The rest of `init` after the ptx version is known: reads the device count,
returns early if it is zero, else selects device `dev_num % num_dev` unless the
option is `dummy`, loads the device properties and creates the three event
handles.  The results of these native calls are ignored by the source, so no
error can be raised here. -/
def initAfterPtx (env : CudaEnv) (dev_num : Int) (opt : gpu_context_opt)
    (ptx : Int) : List ApiCall × CtxState :=
  if env.deviceCount = 0 then
    ([ApiCall.cudaGetDeviceCount],
     { ptx_version := ptx, propsLoaded := false, timer0Created := false,
       timer1Created := false, eventCreated := false })
  else
    ([ApiCall.cudaGetDeviceCount] ++
       (if opt = gpu_context_opt.dummy then []
        else [ApiCall.cudaSetDevice (Int.tmod dev_num (env.deviceCount : Int))]) ++
       [ApiCall.cudaGetDevice, ApiCall.cudaGetDeviceProperties env.currentDevice,
        ApiCall.cudaEventCreate EventHandle.timer0,
        ApiCall.cudaEventCreate EventHandle.timer1,
        ApiCall.cudaEventCreate EventHandle.event],
     { ptx_version := ptx, propsLoaded := true, timer0Created := true,
       timer1Created := true, eventCreated := true })

/-- `ofp_context_t::init` of the CUDA_GPU variant. -/
def init (env : CudaEnv) (dev_num : Int) (opt : gpu_context_opt) :
    List ApiCall × Except CudaError CtxState :=
  match ptxStep env with
  | (c, Except.error e) => (c, Except.error e)
  | (c, Except.ok ptx) =>
    let r := initAfterPtx env dev_num opt ptx
    (c ++ r.1, Except.ok r.2)

/-- The CUDA_GPU constructor: runs `init` and, when the option is
`print_props`, prints the device properties. -/
def construct (env : CudaEnv) (dev_num : Int) (opt : gpu_context_opt) :
    List ApiCall × List Output × Except CudaError CtxState :=
  match init env dev_num opt with
  | (c, Except.error e) => (c, [], Except.error e)
  | (c, Except.ok st) =>
    (c, if opt = gpu_context_opt.print_props then [Output.devicePropsPrinted] else [],
     Except.ok st)

/-- The CUDA_GPU destructor `~ofp_context_t`: unconditionally destroys the two
timer event handles and the event handle. -/
def destructorCalls : List ApiCall :=
  [ApiCall.cudaEventDestroy EventHandle.timer0,
   ApiCall.cudaEventDestroy EventHandle.timer1,
   ApiCall.cudaEventDestroy EventHandle.event]

/-- `ofp_context_t::alloc` of the CUDA_GPU variant: null on zero size without
any native call; otherwise `cudaMalloc` for device space and `cudaMallocHost`
for the other space, throwing `cuda_exception_t` with the native result on
failure. -/
def alloc (env : CudaEnv) (size : Nat) (space : memory_space_t) :
    List ApiCall × Except CudaError PtrVal :=
  if size = 0 then ([], Except.ok none)
  else
    match space with
    | memory_space_t.device =>
      match env.mallocResult size with
      | Except.ok a => ([ApiCall.cudaMalloc size], Except.ok (some a))
      | Except.error e => ([ApiCall.cudaMalloc size], Except.error e)
    | memory_space_t.host =>
      match env.mallocHostResult size with
      | Except.ok a => ([ApiCall.cudaMallocHost size], Except.ok (some a))
      | Except.error e => ([ApiCall.cudaMallocHost size], Except.error e)

/-- `ofp_context_t::free` of the CUDA_GPU variant: nothing happens on a null
pointer; otherwise `cudaFree` for device space and `cudaFreeHost` for the
other space, throwing `cuda_exception_t` with the native result on failure. -/
def free (env : CudaEnv) (p : PtrVal) (space : memory_space_t) :
    List ApiCall × Except CudaError Unit :=
  match p with
  | none => ([], Except.ok ())
  | some a =>
    match space with
    | memory_space_t.device => ([ApiCall.cudaFree a], env.freeResult a)
    | memory_space_t.host => ([ApiCall.cudaFreeHost a], env.freeHostResult a)

/-- `ofp_context_t::timer_begin` of the CUDA_GPU variant: records `_timer[0]`. -/
def timer_begin : List ApiCall :=
  [ApiCall.cudaEventRecord EventHandle.timer0]

/-- `ofp_context_t::timer_end` of the CUDA_GPU variant: records and
synchronizes `_timer[1]`, reads the elapsed milliseconds and returns
`ms / 1.0e3`. -/
def timer_end (env : CudaEnv) : List ApiCall × Rat :=
  ([ApiCall.cudaEventRecord EventHandle.timer1,
    ApiCall.cudaEventSynchronize EventHandle.timer1,
    ApiCall.cudaEventElapsedTime],
   env.elapsedMs / 1000)

end CudaGpu

namespace CudaOnCpu

/-- State of a CUDA_ON_CPU `ofp_context_t`: the `_props` string member,
default-initialized empty by the (empty-bodied) constructor and never
written by any method. -/
structure State where
  _props : String := ""
deriving DecidableEq, Repr

/-- The CUDA_ON_CPU constructor: empty body, default member initialization,
and it prints nothing whatever option is passed. -/
def construct (opt : gpu_context_opt) (dev_num : Int) : List Output × State :=
  ([], {})

/-- CUDA_ON_CPU `props`: returns the `_props` member, printing nothing. -/
def props (st : State) : List Output × String :=
  ([], st._props)

/-- CUDA_ON_CPU `ptx_version`: returns 0, printing nothing. -/
def ptx_version (st : State) : List Output × Int :=
  ([], 0)

/-- CUDA_ON_CPU `stream`: prints the not-implemented diagnostic, returns 0. -/
def stream : List Output × Int :=
  ([Output.notImplemented], 0)

/-- CUDA_ON_CPU `alloc`: prints the not-implemented diagnostic and returns
NULL, for every size and space. -/
def alloc (size : Nat) (space : Int) : List Output × PtrVal :=
  ([Output.notImplemented], none)

/-- CUDA_ON_CPU `free`: prints the not-implemented diagnostic, releases
nothing. -/
def free (p : PtrVal) (space : Int) : List Output × Unit :=
  ([Output.notImplemented], ())

/-- CUDA_ON_CPU `synchronize`: prints the not-implemented diagnostic. -/
def synchronize : List Output × Unit :=
  ([Output.notImplemented], ())

/-- CUDA_ON_CPU `event`: prints the not-implemented diagnostic, returns 0. -/
def event : List Output × Int :=
  ([Output.notImplemented], 0)

/-- CUDA_ON_CPU `timer_begin`: prints the not-implemented diagnostic. -/
def timer_begin : List Output × Unit :=
  ([Output.notImplemented], ())

/-- CUDA_ON_CPU `timer_end`: prints the not-implemented diagnostic and
returns 0.0, also when no `timer_begin` preceded it. -/
def timer_end : List Output × Rat :=
  ([Output.notImplemented], 0)

/-- CUDA_ON_CPU `getDevice`: prints the not-implemented diagnostic, returns 0. -/
def getDevice : List Output × Int :=
  ([Output.notImplemented], 0)

end CudaOnCpu

/-- The disabled-backend `ofp_context_t` stub: only a constructor with an
empty body, printing nothing; no other member exists. -/
def Disabled.construct (opt : gpu_context_opt) (dev_num : Int) : List Output :=
  []

/-- The operations named by the device-context contract. -/
inductive Capability
| alloc
| free
| synchronize
| event
| timer_begin
| timer_end
| getDevice
| getNDevice
| props
| ptx_version
| stream
deriving DecidableEq, Repr, Fintype

/-- The three backend variants of `ofp_context_t`. -/
inductive Backend
| realAccelerator
| cpuStub
| disabled
deriving DecidableEq, Repr

/-- The operations each variant of `ofp_context_t` declares, read off the
three class bodies: the CUDA_GPU variant declares all eleven; the CUDA_ON_CPU
variant declares all but `getNDevice`; the fallback stub declares none. -/
def capabilities : Backend → List Capability
| Backend.realAccelerator =>
  [Capability.props, Capability.ptx_version, Capability.stream,
   Capability.alloc, Capability.free, Capability.synchronize,
   Capability.event, Capability.timer_begin, Capability.timer_end,
   Capability.getDevice, Capability.getNDevice]
| Backend.cpuStub =>
  [Capability.props, Capability.ptx_version, Capability.stream,
   Capability.alloc, Capability.free, Capability.synchronize,
   Capability.event, Capability.timer_begin, Capability.timer_end,
   Capability.getDevice]
| Backend.disabled => []

/-- The number of scratch-buffer members each variant owns: `tmem`, `tmem2`,
`tmem3` on CUDA_GPU; only `tmem` on CUDA_ON_CPU; none on the fallback stub. -/
def scratchBuffers : Backend → Nat
| Backend.realAccelerator => 3
| Backend.cpuStub => 1
| Backend.disabled => 0

/-- The number of scratch-buffer accessors each variant declares
(`getTemporalCUB`, `getTemporalCUB2`, `getTemporalCUB3` on CUDA_GPU only). -/
def scratchAccessors : Backend → Nat
| Backend.realAccelerator => 3
| Backend.cpuStub => 0
| Backend.disabled => 0

/-- The scratch-buffer member of the context that each CUDA_GPU accessor
returns a reference to (accessor 0 is `getTemporalCUB` returning `tmem`, and
so on): the reference is to context-owned storage, so its lifetime is the
context's. -/
def temporalAccessorTarget : Fin 3 → Fin 3 :=
  fun i => i

namespace Cudify

/-- The process-wide / thread-local globals declared in `cudify_vars.cpp`. -/
inductive GlobalVar
| threadIdx
| blockIdx
| blockDim
| gridDim
| vct_atomic_add
| vct_atomic_rem
| n_workers
deriving DecidableEq, Repr

/-- Storage duration of a global in `cudify_vars.cpp`. -/
inductive Storage
| threadLocal
| processShared
deriving DecidableEq, Repr

/-- Storage class of each global, read off its declaration in
`cudify_vars.cpp`: `threadIdx`, `blockIdx`, `vct_atomic_add` and
`vct_atomic_rem` carry `thread_local`; `blockDim`, `gridDim` and `n_workers`
do not. -/
def storageOf : GlobalVar → Storage
| GlobalVar.threadIdx => Storage.threadLocal
| GlobalVar.blockIdx => Storage.threadLocal
| GlobalVar.blockDim => Storage.processShared
| GlobalVar.gridDim => Storage.processShared
| GlobalVar.vct_atomic_add => Storage.threadLocal
| GlobalVar.vct_atomic_rem => Storage.threadLocal
| GlobalVar.n_workers => Storage.processShared

/-- The static initializer of `n_workers` in `cudify_vars.cpp`. -/
def n_workers_init : Nat := 1

/-- Modelled from the spec: the cooperative scheduler (not under `src/`)
partitions the blocks of a launch across up to `n_workers` workers, each
worker processing a disjoint subset of blocks; block `b` of the launch is
handled by worker `b % nw` when `nw` workers are configured. -/
def workerOfBlock (nw : Nat) (b : Nat) : Nat :=
  b % nw

end Cudify

/-- A sample runtime with two devices where every native call succeeds. -/
def envOk : CudaEnv :=
  { nvcc := false, funcAttrPtx := Except.ok 60, deviceCount := 2,
    currentDevice := 0, elapsedMs := 2500,
    mallocResult := fun _ => Except.ok 100,
    mallocHostResult := fun _ => Except.ok 200,
    freeResult := fun _ => Except.ok (),
    freeHostResult := fun _ => Except.ok () }

/-- A sample runtime where the allocation and free calls fail with native
error codes 2 and 4. -/
def envFail : CudaEnv :=
  { envOk with
    mallocResult := fun _ => Except.error 2,
    mallocHostResult := fun _ => Except.error 3,
    freeResult := fun _ => Except.error 4,
    freeHostResult := fun _ => Except.error 5 }

/-- A sample runtime reporting zero devices. -/
def envZero : CudaEnv :=
  { envOk with deviceCount := 0 }

/- Helper lemmas: how `init` reduces in each of the three ptx-step cases. -/

theorem init_eq_of_nvcc_false (env : CudaEnv) (dev_num : Int)
    (opt : gpu_context_opt) (hn : env.nvcc = false) :
    CudaGpu.init env dev_num opt =
      ((CudaGpu.initAfterPtx env dev_num opt 60).1,
       Except.ok (CudaGpu.initAfterPtx env dev_num opt 60).2) := by
  simp [CudaGpu.init, CudaGpu.ptxStep, hn]

theorem init_eq_of_funcAttr_ok (env : CudaEnv) (dev_num : Int)
    (opt : gpu_context_opt) (v : Int) (hn : env.nvcc = true)
    (hv : env.funcAttrPtx = Except.ok v) :
    CudaGpu.init env dev_num opt =
      (ApiCall.cudaFuncGetAttributes :: (CudaGpu.initAfterPtx env dev_num opt v).1,
       Except.ok (CudaGpu.initAfterPtx env dev_num opt v).2) := by
  simp [CudaGpu.init, CudaGpu.ptxStep, hn, hv]

theorem init_eq_of_funcAttr_error (env : CudaEnv) (dev_num : Int)
    (opt : gpu_context_opt) (e : CudaError) (hn : env.nvcc = true)
    (hv : env.funcAttrPtx = Except.error e) :
    CudaGpu.init env dev_num opt = ([ApiCall.cudaFuncGetAttributes], Except.error e) := by
  simp [CudaGpu.init, CudaGpu.ptxStep, hn, hv]

theorem setDevice_mem_initAfterPtx (env : CudaEnv) (dev_num : Int)
    (opt : gpu_context_opt) (ptx : Int) (hc : 0 < env.deviceCount)
    (ho : opt ≠ gpu_context_opt.dummy) :
    ApiCall.cudaSetDevice (Int.tmod dev_num (env.deviceCount : Int)) ∈
      (CudaGpu.initAfterPtx env dev_num opt ptx).1 := by
  have hc' : env.deviceCount ≠ 0 := Nat.pos_iff_ne_zero.mp hc
  simp [CudaGpu.initAfterPtx, hc', ho]

/-- C1: on the CUDA_GPU variant, `alloc(size, space)` with `size = 0` returns
a null pointer, issues no allocation call and raises no error; with a nonzero
size it issues `cudaMalloc` for device space and `cudaMallocHost` otherwise,
returning the allocated pointer on success and raising the native error code
on failure; on the CUDA_ON_CPU variant `alloc` never raises: for every size
and space it prints the diagnostic and returns a null pointer. -/
theorem alloc_contract (env : CudaEnv) (size : Nat) :
    (∀ space : memory_space_t, CudaGpu.alloc env 0 space = ([], Except.ok none)) ∧
    (0 < size →
      ((CudaGpu.alloc env size memory_space_t.device).1 = [ApiCall.cudaMalloc size] ∧
       (∀ a, env.mallocResult size = Except.ok a →
          (CudaGpu.alloc env size memory_space_t.device).2 = Except.ok (some a)) ∧
       (∀ e, env.mallocResult size = Except.error e →
          (CudaGpu.alloc env size memory_space_t.device).2 = Except.error e)) ∧
      ((CudaGpu.alloc env size memory_space_t.host).1 = [ApiCall.cudaMallocHost size] ∧
       (∀ a, env.mallocHostResult size = Except.ok a →
          (CudaGpu.alloc env size memory_space_t.host).2 = Except.ok (some a)) ∧
       (∀ e, env.mallocHostResult size = Except.error e →
          (CudaGpu.alloc env size memory_space_t.host).2 = Except.error e))) ∧
    (∀ (sz : Nat) (sp : Int), CudaOnCpu.alloc sz sp = ([Output.notImplemented], none)) := by
  refine ⟨fun space => by cases space <;> simp [CudaGpu.alloc], fun hs => ?_, fun sz sp => rfl⟩
  have hne : size ≠ 0 := Nat.pos_iff_ne_zero.mp hs
  refine ⟨⟨?_, ?_, ?_⟩, ?_, ?_, ?_⟩
  · cases hr : env.mallocResult size <;> simp [CudaGpu.alloc, hne, hr]
  · intro a ha; simp [CudaGpu.alloc, hne, ha]
  · intro e he; simp [CudaGpu.alloc, hne, he]
  · cases hr : env.mallocHostResult size <;> simp [CudaGpu.alloc, hne, hr]
  · intro a ha; simp [CudaGpu.alloc, hne, ha]
  · intro e he; simp [CudaGpu.alloc, hne, he]

/-- C1 witness: at size 7 the sample succeeding runtime yields pointer 100 on
device space, and the sample failing runtime raises native error code 2. -/
theorem alloc_contract_witness :
    (CudaGpu.alloc envOk 7 memory_space_t.device).2 = Except.ok (some 100) ∧
    (CudaGpu.alloc envFail 7 memory_space_t.device).2 = Except.error 2 ∧
    CudaGpu.alloc envOk 0 memory_space_t.device = ([], Except.ok none) := by
  refine ⟨?_, ?_, ?_⟩
  · exact ((alloc_contract envOk 7).2.1 (by decide)).1.2.1 100 rfl
  · exact ((alloc_contract envFail 7).2.1 (by decide)).1.2.2 2 rfl
  · exact (alloc_contract envOk 7).1 memory_space_t.device

/-- C2 counterexample: on the CUDA_ON_CPU variant, `props` and `ptx_version`
emit no diagnostic message at all, refuting the claim that every operation of
the contract emits one. -/
theorem stub_props_no_diagnostic :
    (CudaOnCpu.props (CudaOnCpu.construct gpu_context_opt.no_print_props 0).2).1 = [] ∧
    (CudaOnCpu.ptx_version (CudaOnCpu.construct gpu_context_opt.no_print_props 0).2).1 = [] :=
  ⟨rfl, rfl⟩

/-- C2 (amended): on the CUDA_ON_CPU variant every operation of the contract
returns a zero/default value (or is a no-op) and never raises; all of them
except `props` and `ptx_version` emit the not-implemented diagnostic, while
`props` and `ptx_version` return their defaults silently. -/
theorem stub_ops_default_and_diag (size : Nat) (space : Int) (p : PtrVal)
    (opt : gpu_context_opt) (dev_num : Int) :
    CudaOnCpu.props (CudaOnCpu.construct opt dev_num).2 = ([], "") ∧
    CudaOnCpu.ptx_version (CudaOnCpu.construct opt dev_num).2 = ([], 0) ∧
    CudaOnCpu.stream = ([Output.notImplemented], 0) ∧
    CudaOnCpu.alloc size space = ([Output.notImplemented], none) ∧
    CudaOnCpu.free p space = ([Output.notImplemented], ()) ∧
    CudaOnCpu.synchronize = ([Output.notImplemented], ()) ∧
    CudaOnCpu.event = ([Output.notImplemented], 0) ∧
    CudaOnCpu.timer_begin = ([Output.notImplemented], ()) ∧
    CudaOnCpu.timer_end = ([Output.notImplemented], 0) ∧
    CudaOnCpu.getDevice = ([Output.notImplemented], 0) :=
  ⟨rfl, rfl, rfl, rfl, rfl, rfl, rfl, rfl, rfl, rfl⟩

/-- C3 counterexample: the three variants do not expose the same capability
set: the CUDA_ON_CPU variant lacks `getNDevice`, owns one scratch buffer
instead of three and declares no scratch-buffer accessor, and the disabled
variant exposes no operation at all. -/
theorem capability_sets_differ :
    capabilities Backend.cpuStub ≠ capabilities Backend.realAccelerator ∧
    Capability.getNDevice ∉ capabilities Backend.cpuStub ∧
    scratchBuffers Backend.cpuStub ≠ 3 ∧
    scratchAccessors Backend.cpuStub = 0 ∧
    capabilities Backend.disabled = [] := by decide

/-- C3 (amended): only the real-accelerator variant exposes the full
capability set, with three scratch buffers and three accessors each returning
a reference to one of the context-owned buffers; the CPU-stub variant exposes
every operation except `getNDevice` and owns a single scratch buffer with no
accessor; the disabled variant exposes only construction. -/
theorem capability_sets_per_variant :
    (∀ c : Capability, c ∈ capabilities Backend.realAccelerator) ∧
    scratchBuffers Backend.realAccelerator = 3 ∧
    scratchAccessors Backend.realAccelerator = 3 ∧
    (∀ i : Fin 3, temporalAccessorTarget i = i) ∧
    (∀ c : Capability, c ∈ capabilities Backend.cpuStub ↔ c ≠ Capability.getNDevice) ∧
    scratchBuffers Backend.cpuStub = 1 ∧
    scratchAccessors Backend.cpuStub = 0 ∧
    capabilities Backend.disabled = [] ∧
    scratchBuffers Backend.disabled = 0 := by decide

/-- C4: on the CUDA_GPU variant, when at least one device exists and the
option is not `dummy`, `init` selects device `dev_num % num_dev` (C++
truncated remainder); when the option is `dummy` no device is ever selected;
when no device exists (and the ptx query does not throw) construction still
succeeds, leaving the context in a degraded state with no properties loaded
and no event handles created. -/
theorem construct_device_selection (env : CudaEnv) (dev_num : Int)
    (opt : gpu_context_opt) :
    ((env.nvcc = false ∨ ∃ v, env.funcAttrPtx = Except.ok v) →
       0 < env.deviceCount → opt ≠ gpu_context_opt.dummy →
       ApiCall.cudaSetDevice (Int.tmod dev_num (env.deviceCount : Int)) ∈
         (CudaGpu.init env dev_num opt).1) ∧
    (opt = gpu_context_opt.dummy →
       ∀ d : Int, ApiCall.cudaSetDevice d ∉ (CudaGpu.init env dev_num opt).1) ∧
    ((env.nvcc = false ∨ ∃ v, env.funcAttrPtx = Except.ok v) →
       env.deviceCount = 0 →
       ∃ st : CudaGpu.CtxState, (CudaGpu.init env dev_num opt).2 = Except.ok st ∧
         st.propsLoaded = false ∧ st.timer0Created = false ∧
         st.timer1Created = false ∧ st.eventCreated = false) := by
  refine ⟨?_, ?_, ?_⟩
  · intro hptx hc ho
    cases hn : env.nvcc with
    | false =>
      rw [init_eq_of_nvcc_false env dev_num opt hn]
      exact setDevice_mem_initAfterPtx env dev_num opt 60 hc ho
    | true =>
      rcases hptx with h | ⟨v, hv⟩
      · simp [h] at hn
      · rw [init_eq_of_funcAttr_ok env dev_num opt v hn hv]
        exact List.mem_cons_of_mem _ (setDevice_mem_initAfterPtx env dev_num opt v hc ho)
  · intro ho d
    subst ho
    cases hn : env.nvcc with
    | false =>
      rw [init_eq_of_nvcc_false env dev_num _ hn]
      by_cases hcz : env.deviceCount = 0 <;> simp [CudaGpu.initAfterPtx, hcz]
    | true =>
      cases hv : env.funcAttrPtx with
      | ok v =>
        rw [init_eq_of_funcAttr_ok env dev_num _ v hn hv]
        by_cases hcz : env.deviceCount = 0 <;> simp [CudaGpu.initAfterPtx, hcz]
      | error e =>
        rw [init_eq_of_funcAttr_error env dev_num _ e hn hv]
        simp
  · intro hptx hcz
    cases hn : env.nvcc with
    | false =>
      rw [init_eq_of_nvcc_false env dev_num opt hn]
      refine ⟨(CudaGpu.initAfterPtx env dev_num opt 60).2, rfl, ?_, ?_, ?_, ?_⟩ <;>
        simp [CudaGpu.initAfterPtx, hcz]
    | true =>
      rcases hptx with h | ⟨v, hv⟩
      · simp [h] at hn
      · rw [init_eq_of_funcAttr_ok env dev_num opt v hn hv]
        refine ⟨(CudaGpu.initAfterPtx env dev_num opt v).2, rfl, ?_, ?_, ?_, ?_⟩ <;>
          simp [CudaGpu.initAfterPtx, hcz]

/-- C4 witness: with two devices, `init` at `dev_num = 5` selects device
`5 % 2`; with zero devices, `init` succeeds in the degraded state. -/
theorem construct_device_selection_witness :
    ApiCall.cudaSetDevice (Int.tmod 5 ((envOk.deviceCount : Nat) : Int)) ∈
      (CudaGpu.init envOk 5 gpu_context_opt.no_print_props).1 ∧
    (∃ st : CudaGpu.CtxState,
       (CudaGpu.init envZero 0 gpu_context_opt.no_print_props).2 = Except.ok st ∧
       st.propsLoaded = false ∧ st.timer0Created = false ∧
       st.timer1Created = false ∧ st.eventCreated = false) ∧
    (∀ d : Int, ApiCall.cudaSetDevice d ∉
       (CudaGpu.init envOk 5 gpu_context_opt.dummy).1) := by
  refine ⟨?_, ?_, ?_⟩
  · exact (construct_device_selection envOk 5 gpu_context_opt.no_print_props).1
      (Or.inl rfl) (by decide) (by decide)
  · exact (construct_device_selection envZero 0 gpu_context_opt.no_print_props).2.2
      (Or.inl rfl) rfl
  · exact (construct_device_selection envOk 5 gpu_context_opt.dummy).2.1 rfl

/-- C5: on the CUDA_GPU variant `timer_end` converts the backend's native
milliseconds measurement to seconds by dividing by 1000 (so multiplying the
returned value by 1000 recovers the native milliseconds); on the CUDA_ON_CPU
variant `timer_end`, also without any prior `timer_begin`, returns the
defined value 0 and does not fail. -/
theorem timer_end_seconds (env : CudaEnv) :
    (CudaGpu.timer_end env).2 * 1000 = env.elapsedMs ∧
    (CudaGpu.timer_end env).2 = env.elapsedMs / 1000 ∧
    CudaOnCpu.timer_end = ([Output.notImplemented], 0) := by
  refine ⟨?_, rfl, rfl⟩
  show env.elapsedMs / 1000 * 1000 = env.elapsedMs
  exact div_mul_cancel₀ env.elapsedMs (by norm_num)

/-- C6: `free` on a null pointer issues no native call and raises no error on
the CUDA_GPU variant, and releases nothing on the CUDA_ON_CPU variant (which
only prints the diagnostic, for any pointer); on a non-null pointer the
CUDA_GPU variant issues `cudaFree` for device space and `cudaFreeHost`
otherwise, raising the native error code on failure. -/
theorem free_contract (env : CudaEnv) (a : Nat) (p : PtrVal) (sp : Int) :
    (∀ space : memory_space_t, CudaGpu.free env none space = ([], Except.ok ())) ∧
    CudaGpu.free env (some a) memory_space_t.device = ([ApiCall.cudaFree a], env.freeResult a) ∧
    CudaGpu.free env (some a) memory_space_t.host = ([ApiCall.cudaFreeHost a], env.freeHostResult a) ∧
    (∀ e, env.freeResult a = Except.error e →
       (CudaGpu.free env (some a) memory_space_t.device).2 = Except.error e) ∧
    CudaOnCpu.free p sp = ([Output.notImplemented], ()) := by
  refine ⟨fun space => by cases space <;> rfl, rfl, rfl, ?_, rfl⟩
  intro e he
  simp [CudaGpu.free, he]

/-- C6 witness: freeing null under the sample runtime is a no-op, and freeing
pointer 9 under the failing runtime raises native error code 4. -/
theorem free_contract_witness :
    CudaGpu.free envOk none memory_space_t.device = ([], Except.ok ()) ∧
    (CudaGpu.free envFail (some 9) memory_space_t.device).2 = Except.error 4 := by
  refine ⟨?_, ?_⟩
  · exact (free_contract envOk 9 none 0).1 memory_space_t.device
  · exact (free_contract envFail 9 none 0).2.2.2.1 4 rfl

/-- C7 counterexample: constructing the CUDA_ON_CPU variant or the disabled
variant with the `print_props` option prints nothing, refuting the claim that
every backend variant prints the device properties under `print_props`. -/
theorem stub_print_props_prints_nothing :
    (CudaOnCpu.construct gpu_context_opt.print_props 0).1 = [] ∧
    Disabled.construct gpu_context_opt.print_props 0 = [] :=
  ⟨rfl, rfl⟩

/-- C7 (amended): only the CUDA_GPU variant honors the option: when its
construction succeeds it prints the device properties exactly when the option
is `print_props`, and prints nothing under `no_print_props`; the CUDA_ON_CPU
and disabled variants print nothing for every option. -/
theorem print_props_only_real_variant (env : CudaEnv) (dev_num : Int)
    (opt : gpu_context_opt) :
    (∀ st : CudaGpu.CtxState, (CudaGpu.construct env dev_num opt).2.2 = Except.ok st →
       (CudaGpu.construct env dev_num opt).2.1 =
         (if opt = gpu_context_opt.print_props then [Output.devicePropsPrinted] else [])) ∧
    (CudaGpu.construct env dev_num gpu_context_opt.no_print_props).2.1 = [] ∧
    (∀ (o : gpu_context_opt) (d : Int), (CudaOnCpu.construct o d).1 = []) ∧
    (∀ (o : gpu_context_opt) (d : Int), Disabled.construct o d = []) := by
  refine ⟨?_, ?_, fun o d => rfl, fun o d => rfl⟩
  · intro st hst
    rcases h : CudaGpu.init env dev_num opt with ⟨c, r⟩
    cases r with
    | ok s => simp [CudaGpu.construct, h]
    | error e => simp [CudaGpu.construct, h] at hst
  · rcases h : CudaGpu.init env dev_num gpu_context_opt.no_print_props with ⟨c, r⟩
    cases r with
    | ok s => simp [CudaGpu.construct, h]
    | error e => simp [CudaGpu.construct, h]

/-- C7 witness: constructing the CUDA_GPU variant under the sample runtime
with `print_props` prints the device properties. -/
theorem print_props_only_real_variant_witness :
    (CudaGpu.construct envOk 0 gpu_context_opt.print_props).2.1 =
      [Output.devicePropsPrinted] := by
  have h := (print_props_only_real_variant envOk 0 gpu_context_opt.print_props).1
    { ptx_version := 60, propsLoaded := true, timer0Created := true,
      timer1Created := true, eventCreated := true } rfl
  simpa using h

/-- C8: in `cudify_vars.cpp`, the simulated coordinate registers `threadIdx`
and `blockIdx` and the atomic-emulation cells `vct_atomic_add` and
`vct_atomic_rem` are declared `thread_local`, while `blockDim`, `gridDim` and
`n_workers` are process-wide shared globals. -/
theorem cudify_storage_classes :
    Cudify.storageOf Cudify.GlobalVar.threadIdx = Cudify.Storage.threadLocal ∧
    Cudify.storageOf Cudify.GlobalVar.blockIdx = Cudify.Storage.threadLocal ∧
    Cudify.storageOf Cudify.GlobalVar.vct_atomic_add = Cudify.Storage.threadLocal ∧
    Cudify.storageOf Cudify.GlobalVar.vct_atomic_rem = Cudify.Storage.threadLocal ∧
    Cudify.storageOf Cudify.GlobalVar.blockDim = Cudify.Storage.processShared ∧
    Cudify.storageOf Cudify.GlobalVar.gridDim = Cudify.Storage.processShared ∧
    Cudify.storageOf Cudify.GlobalVar.n_workers = Cudify.Storage.processShared := by
  decide

/-- C9: on the CUDA_GPU variant with zero devices, `init` returns before
creating any of the three event handles, yet the destructor unconditionally
issues `cudaEventDestroy` on all three, so every destroy in the destructor
has no matching create. -/
theorem destroy_without_create_on_zero_devices (env : CudaEnv) (dev_num : Int)
    (opt : gpu_context_opt) (h : env.deviceCount = 0) :
    (∀ hdl : EventHandle,
       ApiCall.cudaEventCreate hdl ∉ (CudaGpu.init env dev_num opt).1) ∧
    (∀ hdl : EventHandle,
       ApiCall.cudaEventDestroy hdl ∈ CudaGpu.destructorCalls) := by
  constructor
  · intro hdl
    cases hn : env.nvcc with
    | false =>
      rw [init_eq_of_nvcc_false env dev_num opt hn]
      simp [CudaGpu.initAfterPtx, h]
    | true =>
      cases hv : env.funcAttrPtx with
      | ok v =>
        rw [init_eq_of_funcAttr_ok env dev_num opt v hn hv]
        simp [CudaGpu.initAfterPtx, h]
      | error e =>
        rw [init_eq_of_funcAttr_error env dev_num opt e hn hv]
        simp
  · intro hdl
    cases hdl <;> simp [CudaGpu.destructorCalls]

/-- C9 witness: under the zero-device sample runtime, the event handle is
never created by `init` and is still destroyed by the destructor. -/
theorem destroy_without_create_on_zero_devices_witness :
    ApiCall.cudaEventCreate EventHandle.event ∉
      (CudaGpu.init envZero 0 gpu_context_opt.no_print_props).1 ∧
    ApiCall.cudaEventDestroy EventHandle.event ∈ CudaGpu.destructorCalls := by
  have h := destroy_without_create_on_zero_devices envZero 0
    gpu_context_opt.no_print_props rfl
  exact ⟨h.1 EventHandle.event, h.2 EventHandle.event⟩

/-- C10: `n_workers` is statically initialized to 1 in `cudify_vars.cpp`, so
the spec-modelled block partitioning maps every block of a launch to the
single worker 0 before anything changes the worker count. -/
theorem n_workers_default_sequential :
    Cudify.n_workers_init = 1 ∧
    ∀ b : Nat, Cudify.workerOfBlock Cudify.n_workers_init b = 0 := by
  refine ⟨rfl, fun b => ?_⟩
  simp only [Cudify.workerOfBlock, Cudify.n_workers_init]
  exact Nat.mod_one b

end Ofp
